import Mathlib

/-!
# Shallow embedding of `src/server.rs` (smo-online-server)

This file embeds the connection-handling core of the relay server:
the data model (`Peer`, `Player`, `Packet`, `Content`), the registry and
player-store operations, the handshake (`Server::handle_connection`
lines 76–157), the join announcement loop (lines 159–196), the active
receive/process/relay loop (lines 207–294) with its `Game` mutation rule,
the broadcast engines (`broadcast`, `broadcast_map`), ban enforcement
(`on_new_peer`), teardown (lines 296–303), and the header-read handling of
`receive_packet` (lines 346–356).

Uuids and socket addresses are modelled as `Nat`; the registry `HashMap`
is modelled as an association list whose list order stands for the map's
(arbitrary) iteration order.  Fallible steps (`?`-returns and
`expect`/`ok_or` panics) are modelled with `Except`.  Outbound sends on a
peer's channel are recorded in a `sent` list on the `Peer` record.

Modules `peer.rs`, `players.rs`, `packet.rs`, `settings.rs` are not under
`src/`; the small pieces of them that the core calls are modelled from the
spec, each marked `Modelled from the spec:` in its doc comment.
-/

namespace Smo

/-- Connection type tag of a `Connect` content.  Modelled from the spec:
`packet.rs` is not in `src/`; the spec's join announcement is "tagged as
first sight" and the code uses `ConnectionType::First`. -/
inductive ConnectionType
  | first
  | reconnect
deriving DecidableEq, Repr

/-- The closed content variant set of `packet.rs` (`Content`), fields as in
spec §6: `Init{max_player}`, `Connect{connection_type, max_player,
client_name}`, `Disconnect`, `Costume{body, cap}`,
`Game{is_2d, scenario, stage}`, `Tag{update_type, is_it, seconds, minutes}`,
plus an opaque catch-all. -/
inductive Content
  | init (maxPlayer : Int)
  | connect (type_ : ConnectionType) (maxPlayer : Nat) (client : String)
  | disconnect
  | costume (body cap : String)
  | game (is_2d : Bool) (scenario : Nat) (stage : String)
  | tag (updateType : Nat) (isIt : Bool) (seconds minutes : Nat)
  | other
deriving DecidableEq, Repr

/-- Modelled from the spec: the `Content::is_connect` predicate used at
`server.rs:93` (defined in the missing `packet.rs`): true exactly on the
`Connect` variant. -/
def Content.is_connect : Content → Bool
  | .connect _ _ _ => true
  | _ => false

/-- `Content::is_disconnect`-style discrimination used by the active loop's
`Content::Disconnect => break` arm. -/
def Content.is_disconnect : Content → Bool
  | .disconnect => true
  | _ => false

/-- `Packet`: `{sender PlayerId, Content}` (`packet.rs`); the Uuid is a `Nat`. -/
structure Packet where
  id : Nat
  content : Content
deriving DecidableEq, Repr

/-- `Packet::new(id, content)`. -/
def Packet.new (id : Nat) (content : Content) : Packet := ⟨id, content⟩

/-- A stored costume (`players.rs`): body and cap. -/
structure Costume where
  body : String
  cap : String
deriving DecidableEq, Repr

/-- The `Player` record of `players.rs`, fields as used by `server.rs`
(costume, scenario, is_2d, is_speedrun, shine_sync, last_game_packet,
name, id).  The shine-sync set is a list of shine ids. -/
structure Player where
  id : Nat
  name : String
  costume : Option Costume
  scenario : Option Nat
  is_2d : Bool
  is_speedrun : Bool
  shine_sync : List Nat
  last_game_packet : Option Packet
deriving DecidableEq, Repr

/-- Modelled from the spec: `Player::new(id, client)` (missing
`players.rs`) constructs a fresh Player from the handshake's name field;
optional fields empty, flags false (§3: "construct a Player from the
handshake's name field"). -/
def Player.new (id : Nat) (name : String) : Player :=
  { id := id, name := name, costume := none, scenario := none,
    is_2d := false, is_speedrun := false, shine_sync := [],
    last_game_packet := none }

/-- Modelled from the spec: `Player::set_costume(body, cap)` overwrites the
stored costume (§4.1 "*Costume*: overwrite stored costume"). -/
def Player.set_costume (p : Player) (body cap : String) : Player :=
  { p with costume := some ⟨body, cap⟩ }

/-- Modelled from the spec: `Player::persist_shines` durably saves the
current shine-sync set (§6, "fire-and-forget"); it changes no field of the
in-memory record. -/
def Player.persist_shines (p : Player) : Player := p

/-- The `Peer` record of `peer.rs`: PlayerId, remote address, `connected`
flag, and the owned outbound send channel.  The channel is modelled by the
list of packets delivered through it (`sent`) plus an open/closed flag. -/
structure Peer where
  id : Nat
  ip : Nat
  connected : Bool
  sent : List Packet
  channelOpen : Bool
deriving DecidableEq, Repr

/-- Modelled from the spec: `Peer::new(ip, writer)` (missing `peer.rs`)
builds a live peer for a fresh socket.  The Peer carries a placeholder id
(`server.rs` later overwrites it: `peer.id = packet.id`); the placeholder is
a parameter here since it is generated server-side, before the client's
PlayerId is known. -/
def Peer.new (freshId ip : Nat) : Peer :=
  { id := freshId, ip := ip, connected := true, sent := [], channelOpen := true }

/-- `Peer::send`: deliver one packet on the peer's outbound channel. -/
def Peer.send (p : Peer) (pkt : Packet) : Peer :=
  { p with sent := p.sent ++ [pkt] }

/-- Modelled from the spec: `Peer::disconnect` closes the send channel
(§4.1 teardown "close its send channel"). -/
def Peer.disconnect (p : Peer) : Peer :=
  { p with channelOpen := false }

/-- Ban list of `settings.rs` as used by `on_new_peer`: denylisted
addresses (`ips`) and PlayerIds (`ids`). -/
structure BanList where
  ips : List Nat
  ids : List Nat
deriving DecidableEq, Repr

/-- Settings collaborator contract (§6): ban list and merge flag, field
names as used by `server.rs` (`ban_list`, `is_merge_enabled`). -/
structure Settings where
  ban_list : BanList
  is_merge_enabled : Bool
deriving DecidableEq, Repr

/-- `MAX_PLAYER: i16 = 10` (`server.rs:24`). -/
def MAX_PLAYER : Int := 10

/-! ## Association-list model of the two shared maps -/

/-- Lookup in an association list (`HashMap::get` / `Players::get`). -/
def lookupKey {α : Type} : List (Nat × α) → Nat → Option α
  | [], _ => none
  | (k, v) :: rest, k' => if k = k' then some v else lookupKey rest k'

/-- `HashMap::remove` (drops the entry with the key, if any). -/
def removeKey {α : Type} (m : List (Nat × α)) (k : Nat) : List (Nat × α) :=
  m.filter (fun e => e.1 ≠ k)

/-- `HashMap::insert`: replaces any existing entry for the key.  (The real
map's iteration order is arbitrary; this model appends.) -/
def insertKey {α : Type} (m : List (Nat × α)) (k : Nat) (v : α) : List (Nat × α) :=
  removeKey m k ++ [(k, v)]

/-- In-place update of the entry at a key, if present (the `get_mut` /
shared-handle mutations). -/
def updateKey {α : Type} (m : List (Nat × α)) (k : Nat) (f : α → α) : List (Nat × α) :=
  m.map (fun e => if e.1 = k then (e.1, f e.2) else e)

/-- The shared server state: the peer registry (`peers:
RwLock<HashMap<Uuid, Peer>>`) and the player store (`players: Players`).
List order models the map's iteration order. -/
structure ServerState where
  peers : List (Nat × Peer)
  players : List (Nat × Player)
deriving DecidableEq, Repr

/-- Modelled from the spec: `Players::add` (missing `players.rs`) adds a
Player record to the store (§6 `add(Player) -> result`); the caller invokes
it only when `get` returned none. -/
def addPlayer (players : List (Nat × Player)) (p : Player) : List (Nat × Player) :=
  players ++ [(p.id, p)]

/-- Modelled from the spec: `Players::get_last_game_packets` (missing
`players.rs`) returns the most recently observed Game packet of every
player that has one (§4.4, §6). -/
def get_last_game_packets (players : List (Nat × Player)) : List Packet :=
  players.filterMap (fun e => e.2.last_game_packet)

/-! ## The connected-peer count of the capacity gate -/

/-- The capacity gate's count, exactly as written at `server.rs:103-105`:
`peers.iter().fold(0, |acc, p| if p.1.connected { acc + 1 } else { 0 })`.
Note the `else` arm resets the accumulator to zero. -/
def connected_peers_count (peers : List (Nat × Peer)) : Int :=
  peers.foldl (fun acc p => if p.2.connected then acc + 1 else 0) 0

/-- The count the spec asks for (§4.3): a plain, order-independent count of
entries with `connected = true`.  Stated from the spec's words, for
comparison with `connected_peers_count`. -/
def connectedCountSpec (peers : List (Nat × Peer)) : Int :=
  (peers.filter (fun e => e.2.connected)).length

/-! ## Errors and outcomes of `handle_connection` -/

/-- The terminal errors `handle_connection` can produce.  `?`-returned
`anyhow` errors and `expect`/`ok_or` panics are both modelled as error
values; the names follow the code's messages. -/
inductive HandlerErr
  | firstRecvIo          -- `receive_packet(..)?` failing before the handshake
  | protocolViolation    -- "Didn't receive connection packet as first packet"
  | serverFull           -- "Server full"
  | unreachableArm       -- "This case isn't supposed to be reach"
  | banned               -- "Banned player ... tried to joined"
  | selfLookupMissing    -- "Player is supposed to be in the HashMap"
  | desync               -- "Peers and Players are desynchronized"
  | playerMissing        -- "Player is supposed to be here"
  | loopIo               -- `receive_packet(..)?` failing inside the active loop
  | idMismatch           -- "Id mismatch: received .. - expecting .."
  | teardownMissing      -- "Peer is supposed to be here"
deriving DecidableEq, Repr

/-- One receive step's outcome at the call sites of `receive_packet`:
either a decoded packet or an I/O failure. -/
inductive RecvResult
  | ok (pkt : Packet)
  | err
deriving DecidableEq, Repr

/-- Outcome of the handshake phase (`server.rs:76-151`): the shared state
after it, the result (`ok` carries the bound local `id` — the value of
`peer.id.clone()` at line 81), and, when the candidate peer was rejected
before registration, the candidate with the sends it had received. -/
structure HandshakeOutcome where
  state : ServerState
  result : Except HandlerErr Nat
  rejectedPeer : Option Peer
deriving Repr

/-! ## Ban enforcement and join-time catch-up (`on_new_peer`) -/

/-- `Server::on_new_peer` (`server.rs:306-343`): reject if the peer's
address is in `ban_list.ips` or its id is in `ban_list.ids`; otherwise send
every player's last Game packet to the peer and return it. -/
def on_new_peer (settings : Settings) (players : List (Nat × Player)) (peer : Peer) :
    Except Unit Peer :=
  let is_ip_banned := settings.ban_list.ips.contains peer.ip
  let is_id_banned := settings.ban_list.ids.contains peer.id
  if is_id_banned || is_ip_banned then
    .error ()
  else
    .ok ((get_last_game_packets players).foldl (fun p pkt => p.send pkt) peer)

/-! ## The handshake (`server.rs:76-151`) -/

/-- The handshake phase of `Server::handle_connection` (`server.rs:80-151`):
build the candidate peer, bind `id := peer.id` (line 81), send the `Init`
advertisement, receive the first message, require `Connect` content, run the
capacity gate, remove any stale entry under the declared id, then branch on
whether a Player exists (reconnect vs. create path, with ban check and
catch-up on the create path only), and insert the peer under `packet.id`. -/
def handshake (settings : Settings) (st : ServerState) (freshId ip : Nat)
    (firstRead : RecvResult) : HandshakeOutcome :=
  let peer := Peer.new freshId ip
  let id := peer.id
  let peer := peer.send (Packet.new peer.id (.init MAX_PLAYER))
  match firstRead with
  | .err => ⟨st, .error .firstRecvIo, some peer⟩
  | .ok packet =>
    if !packet.content.is_connect then
      ⟨st, .error .protocolViolation, some peer⟩
    else
      let connected_peers := connected_peers_count st.peers
      if connected_peers = MAX_PLAYER then
        ⟨st, .error .serverFull, some peer⟩
      else
        let peers1 := removeKey st.peers packet.id
        match packet.content, lookupKey st.players packet.id with
        | _, some _ =>
          -- reconnect path: rebind the fresh peer under the declared id
          let peer := { peer with id := packet.id }
          ⟨⟨insertKey peers1 packet.id peer, st.players⟩, .ok id, none⟩
        | .connect _ _ client, none =>
          -- create path: add the Player, then ban check + catch-up
          let peer := { peer with id := packet.id }
          let player := Player.new packet.id client
          let players1 := addPlayer st.players player
          match on_new_peer settings players1 peer with
          | .error _ => ⟨⟨peers1, players1⟩, .error .banned, some peer⟩
          | .ok peer => ⟨⟨insertKey peers1 packet.id peer, players1⟩, .ok id, none⟩
        | _, none =>
          ⟨⟨peers1, st.players⟩, .error .unreachableArm, some peer⟩

/-! ## The join announcement loop (`server.rs:153-196`) -/

/-- One iteration of the announcement loop (`server.rs:159-196`) for the
entry `(uuid, peer)`: skipped when `uuid` equals the bound id; otherwise the
player record for `uuid` is fetched (its absence is the "Peers and Players
are desynchronized" panic) and a `Connect`(First) packet — and a `Costume`
packet when that player has a costume — is sent on `peer`'s channel.  Note
the loop binder `peer` shadows the outer `peer` of line 155: the sends land
on the iterated entry's own channel. -/
def announceOne (players : List (Nat × Player)) (id : Nat) (entry : Nat × Peer) :
    Except HandlerErr (Nat × Peer) :=
  if entry.1 = id then .ok entry
  else
    match lookupKey players entry.1 with
    | none => .error .desync
    | some player =>
      let p := entry.2.send
        (Packet.new player.id (.connect .first 10 player.name))
      let p := match player.costume with
        | some c => p.send (Packet.new player.id (.costume c.body c.cap))
        | none => p
      .ok (entry.1, p)

/-- The announcement loop over the whole registry. -/
def announceLoop (peers : List (Nat × Peer)) (players : List (Nat × Player))
    (id : Nat) : Except HandlerErr (List (Nat × Peer)) :=
  match peers with
  | [] => .ok []
  | e :: rest =>
    match announceOne players id e with
    | .error err => .error err
    | .ok e' =>
      match announceLoop rest players id with
      | .error err => .error err
      | .ok rest' => .ok (e' :: rest')

/-! ## Broadcast engines (`server.rs:41-74`) -/

/-- `Server::broadcast` (`server.rs:41-51`): deliver the packet unmodified
to every peer with `connected = true` whose id differs from the packet's
sender id. -/
def broadcast (peers : List (Nat × Peer)) (packet : Packet) : List (Nat × Peer) :=
  peers.map (fun e =>
    if e.2.connected && e.2.id ≠ packet.id then (e.1, e.2.send packet) else e)

/-- `Server::broadcast_map` (`server.rs:53-74`): same fan-out, but each
delivered copy is obtained by looking up the Player record for
**`packet.id` (the sender)** and, when present, applying the transform to
that player and the packet; when absent, the unmodified packet is sent. -/
def broadcast_map (players : List (Nat × Player)) (peers : List (Nat × Peer))
    (packet : Packet) (map : Player → Packet → Packet) : List (Nat × Peer) :=
  peers.map (fun e =>
    if e.2.connected && e.2.id ≠ packet.id then
      let out := match lookupKey players packet.id with
        | some pl => map pl packet
        | none => packet
      (e.1, e.2.send out)
    else e)

/-- The merge-mode transform closure (`server.rs:258-279`): on `Game`
content, rebuild the packet with the given player's scenario
(`player.scenario.unwrap_or(200)`), keeping `is_2d` and `stage`; other
content passes through unchanged. -/
def mergeTransform (player : Player) (packet : Packet) : Packet :=
  match packet.content with
  | .game is_2d _ stage =>
    Packet.new packet.id (.game is_2d (player.scenario.getD 200) stage)
  | _ => packet

/-! ## Content handling in the active loop (`server.rs:220-293`) -/

/-- The `Content::Game` mutation of the owning Player
(`server.rs:232-255`): overwrite `scenario`, `is_2d` and the last-seen Game
packet; on stage `CapWorldHomeStage` with scenario 0, set `is_speedrun`,
empty the shine-sync set and persist it; on stage `WaterfallWorldHomeStage`,
clear `is_speedrun`. -/
def processGame (player : Player) (packet : Packet) (is_2d : Bool)
    (scenario : Nat) (stage : String) : Player :=
  let player := { player with
    scenario := some scenario, is_2d := is_2d, last_game_packet := some packet }
  if stage = "CapWorldHomeStage" ∧ scenario = 0 then
    ({ player with is_speedrun := true, shine_sync := [] }).persist_shines
  else if stage = "WaterfallWorldHomeStage" then
    { player with is_speedrun := false }
  else
    player

/-- One non-`Disconnect` iteration body of the active loop after the
id-mismatch check (`server.rs:220-293`): apply the content-specific
mutation to the player stored under the bound id, run the merge-mode
broadcast for `Game` content when enabled, then relay the original packet
with `broadcast`. -/
def activeStep (settings : Settings) (st : ServerState) (id : Nat)
    (pkt : Packet) : ServerState :=
  match pkt.content with
  | .costume body cap =>
    let players := updateKey st.players id (fun pl => pl.set_costume body cap)
    ⟨broadcast st.peers pkt, players⟩
  | .game is_2d scenario stage =>
    let players := updateKey st.players id
      (fun pl => processGame pl pkt is_2d scenario stage)
    let peers :=
      if settings.is_merge_enabled then
        broadcast_map players st.peers pkt mergeTransform
      else st.peers
    ⟨broadcast peers pkt, players⟩
  | _ => ⟨broadcast st.peers pkt, st.players⟩

/-- How the active loop terminated. -/
inductive LoopExit
  | cleanDisconnect   -- `Content::Disconnect => break`
  | ioError           -- `receive_packet(..)?` returned Err
  | idMismatch        -- declared sender id differs from the bound id
deriving DecidableEq, Repr

/-- The active loop (`server.rs:207-294`) over a finite list of receive
outcomes: receive, fail the connection on an I/O error or an id mismatch
(both return through `?`/`return Err` without further effect), break on
`Disconnect` content (before the relay), otherwise run `activeStep` and
continue.  `none` means the modelled input ran out without the loop
terminating. -/
def activeLoop (settings : Settings) (id : Nat) :
    ServerState → List RecvResult → Option (ServerState × LoopExit)
  | _, [] => none
  | st, .err :: _ => some (st, .ioError)
  | st, .ok pkt :: rest =>
    if pkt.id ≠ id then some (st, .idMismatch)
    else if pkt.content.is_disconnect then some (st, .cleanDisconnect)
    else activeLoop settings id (activeStep settings st id pkt) rest

/-- Teardown (`server.rs:296-303`): fetch the Peer under the bound id
(`expect("Peer is supposed to be here")`), set `connected = false` and
close its channel.  `none` models the panic when the id is absent. -/
def teardown (st : ServerState) (id : Nat) : Option ServerState :=
  match lookupKey st.peers id with
  | none => none
  | some _ =>
    some ⟨updateKey st.peers id (fun p => (Peer.disconnect { p with connected := false })),
          st.players⟩

/-- The active phase of `handle_connection` as the code composes it: run
the loop; on `Disconnect` run teardown and return `Ok`; on an I/O error or
an id mismatch the `?`/`return Err` propagates the error **without reaching
the teardown block**. -/
def handleActive (settings : Settings) (id : Nat) (st : ServerState)
    (inputs : List RecvResult) : Option (ServerState × Except HandlerErr Unit) :=
  match activeLoop settings id st inputs with
  | none => none
  | some (st', .ioError) => some (st', .error .loopIo)
  | some (st', .idMismatch) => some (st', .error .idMismatch)
  | some (st', .cleanDisconnect) =>
    match teardown st' id with
    | none => some (st', .error .teardownMissing)
    | some st'' => some (st'', .ok ())

/-! ## Handshake followed by the post-registration self-lookup -/

/-- `server.rs:76-157`: the handshake, then the self-lookup
`peers.get(&id).ok_or("Player is supposed to be in the HashMap")` that
gates entry into the announcement loop and the active phase.  The lookup
key is the bound `id` of line 81 (the pre-handshake `peer.id`), not the
`packet.id` under which the peer was registered. -/
def handshakeThroughLookup (settings : Settings) (st : ServerState)
    (freshId ip : Nat) (firstRead : RecvResult) : HandshakeOutcome :=
  let o := handshake settings st freshId ip firstRead
  match o.result with
  | .ok boundId =>
    match lookupKey o.state.peers boundId with
    | some _ => o
    | none => { o with result := .error .selfLookupMissing }
  | _ => o

/-! ## Header-read handling of `receive_packet` (`server.rs:346-356`) -/

/-- Outcome of the header `read_exact` call. -/
inductive ReadOutcome
  | ok (n : Nat)
  | err
deriving DecidableEq, Repr

/-- The header-read dispatch of `receive_packet` (`server.rs:349-356`):
`Ok(0)` returns a synthetic `Disconnect` packet with the nil Uuid
(modelled as 0); any other `Ok` continues into header parsing and body
reading (abstracted as `rest`, the external codec boundary); `Err`
propagates as an error. -/
def receive_packet (headerRead : ReadOutcome)
    (rest : Except Unit Packet) : Except Unit Packet :=
  match headerRead with
  | .ok 0 => .ok (Packet.new 0 .disconnect)
  | .ok _ => rest
  | .err => .error ()

/-! ## Concrete fixtures for counterexamples and evaluations -/

/-- Settings with empty ban lists and merge mode off. -/
def openSettings : Settings := ⟨⟨[], []⟩, false⟩

/-- Settings whose id denylist contains PlayerId 2. -/
def banSettings : Settings := ⟨⟨[], [2]⟩, false⟩

/-- A first message: `Connect` declaring PlayerId 2, client name "Mario". -/
def connectPkt2 : Packet := Packet.new 2 (.connect .first 10 "Mario")

/-- An empty shared state: no peers, no players. -/
def emptyState : ServerState := ⟨[], []⟩

/-- A connected peer with id and address `k` and an empty channel. -/
def connPeer (k : Nat) : Peer := ⟨k, k, true, [], true⟩

/-- A registry iteration order with ten connected peers followed by one
disconnected entry. -/
def demoRegistry : List (Nat × Peer) :=
  ((List.range 10).map (fun k => (k, connPeer k))) ++ [(100, ⟨100, 100, false, [], true⟩)]

/-- State holding `demoRegistry` and no players. -/
def demoState : ServerState := ⟨demoRegistry, []⟩

/-- A first message: `Connect` declaring PlayerId 11, client name "Wario". -/
def connectPkt11 : Packet := Packet.new 11 (.connect .first 10 "Wario")

/-- Player 1 ("Mario") with last-known scenario 5. -/
def mario : Player := { Player.new 1 "Mario" with scenario := some 5 }

/-- Player 2 ("Luigi") with last-known scenario 7. -/
def luigi : Player := { Player.new 2 "Luigi" with scenario := some 7 }

/-- Player 2 ("Luigi") with a costume set. -/
def luigiCostumed : Player :=
  { Player.new 2 "Luigi" with costume := some ⟨"Builder", "Cap1"⟩ }

/-- A live peer bound to PlayerId 1. -/
def marioPeer : Peer := ⟨1, 11, true, [], true⟩

/-- A live peer bound to PlayerId 2. -/
def luigiPeer : Peer := ⟨2, 22, true, [], true⟩

/-- A stale (disconnected, channel closed) registry entry for PlayerId 2. -/
def stalePeer : Peer := ⟨2, 9, false, [], false⟩

/-- A Game packet from sender 1: not 2d, scenario 5, a sand-world stage. -/
def gamePkt : Packet := Packet.new 1 (.game false 5 "SandWorldHomeStage")

/-- The state of a session whose active loop is running: peer 2 registered
and connected, player 2 present. -/
def activeState : ServerState := ⟨[(2, luigiPeer)], [(2, luigi)]⟩

/-- Settings whose address denylist contains address 9. -/
def ipBanSettings : Settings := ⟨⟨[9], []⟩, false⟩

/-! ## Theorems -/

/-- **C8** — When the header read returns zero bytes, `receive_packet`
returns a successful result carrying a synthetic `Disconnect` packet (with
the nil sender id), not an error, whatever the rest of the decode would
have produced. -/
theorem receive_packet_zero_read_is_clean_disconnect (rest : Except Unit Packet) :
    receive_packet (.ok 0) rest = .ok (Packet.new 0 .disconnect) := rfl

/-- **C9** — Processing a `Game` packet: stage `CapWorldHomeStage` with
scenario 0 sets `is_speedrun` and empties the shine-sync set; stage
`WaterfallWorldHomeStage` clears `is_speedrun`; and every `Game` packet
overwrites the player's scenario, `is_2d` and last-seen Game packet. -/
theorem game_processing_speedrun_and_overwrites (player : Player) (packet : Packet)
    (is_2d : Bool) (scenario : Nat) (stage : String) :
    ((processGame player packet is_2d 0 "CapWorldHomeStage").is_speedrun = true
      ∧ (processGame player packet is_2d 0 "CapWorldHomeStage").shine_sync = [])
    ∧ (processGame player packet is_2d scenario "WaterfallWorldHomeStage").is_speedrun = false
    ∧ ((processGame player packet is_2d scenario stage).scenario = some scenario
      ∧ (processGame player packet is_2d scenario stage).is_2d = is_2d
      ∧ (processGame player packet is_2d scenario stage).last_game_packet = some packet) := by
  refine ⟨⟨?_, ?_⟩, ?_, ?_, ?_, ?_⟩ <;>
    · unfold processGame Player.persist_shines
      split_ifs <;> simp_all

/-- **C10** — A first message whose content is not `Connect` fails the
handshake with a protocol violation and leaves the registry and the player
store exactly as they were. -/
theorem non_connect_first_message_no_side_effects (settings : Settings)
    (st : ServerState) (freshId ip : Nat) (pkt : Packet)
    (h : pkt.content.is_connect = false) :
    (handshake settings st freshId ip (.ok pkt)).state = st
    ∧ (handshake settings st freshId ip (.ok pkt)).result
        = .error .protocolViolation := by
  unfold handshake
  simp [h]

/-- Witness for C10's theorem at a concrete input: a `Game` packet as the
first message. -/
theorem non_connect_first_message_no_side_effects_witness :
    (handshake openSettings emptyState 1 9 (.ok gamePkt)).state = emptyState
    ∧ (handshake openSettings emptyState 1 9 (.ok gamePkt)).result
        = .error .protocolViolation :=
  non_connect_first_message_no_side_effects openSettings emptyState 1 9 gamePkt rfl

/-- **C1** — On an empty server, a successful `Connect` handshake declaring
PlayerId 2 (with the server-generated placeholder id being 1) registers the
peer under id 2, yet the post-registration self-lookup — keyed by the bound
`id` captured from the placeholder at `server.rs:81` — fails, so the
handler errors with "Player is supposed to be in the HashMap" instead of
entering the active loop. -/
theorem bound_id_stale_fails_self_lookup :
    (handshakeThroughLookup openSettings emptyState 1 9 (.ok connectPkt2)).result
        = .error .selfLookupMissing
    ∧ (lookupKey (handshakeThroughLookup openSettings emptyState 1 9
        (.ok connectPkt2)).state.peers 2).isSome = true :=
  ⟨rfl, rfl⟩

/-- **C2** — An iteration order with ten connected peers followed by one
disconnected entry: the plain count is 10 (the maximum), but the code's
resetting fold computes 0 (and 10 again on the reversed order, showing
order dependence), so the eleventh handshake is not rejected as full and
its peer is registered. -/
theorem capacity_count_resets_and_admits_eleventh :
    connectedCountSpec demoRegistry = 10
    ∧ connected_peers_count demoRegistry = 0
    ∧ connected_peers_count demoRegistry.reverse = 10
    ∧ (handshake openSettings demoState 1 9 (.ok connectPkt11)).result = .ok 1
    ∧ (lookupKey (handshake openSettings demoState 1 9
        (.ok connectPkt11)).state.peers 11).isSome = true :=
  ⟨rfl, rfl, rfl, rfl, rfl⟩

/-- **C3** — Merge-mode broadcast of a `Game` packet from sender 1
(scenario 5, as just stored for the sender) to recipient 2 whose own
last-known scenario is 7: the delivered copy carries scenario 5 — the
sender's, because `broadcast_map` looks up the Player for `packet.id` —
not the recipient's 7 that the claim requires. -/
theorem merge_broadcast_substitutes_sender_scenario :
    broadcast_map [(1, mario), (2, luigi)] [(2, luigiPeer)] gamePkt mergeTransform
      = [(2, luigiPeer.send (Packet.new 1 (.game false 5 "SandWorldHomeStage")))]
    ∧ luigi.scenario = some 7
    ∧ (5 : Nat) ≠ 7 :=
  ⟨rfl, rfl, by decide⟩

/-- **C4** — The join announcement after player 1 ("Mario") registers, with
player 2 ("Luigi", costumed) already connected: the loop sends peer 2 a
`Connect`(First) packet whose sender id and client name are Luigi's own
(and Luigi's own costume), because the loop binder shadows the new
connection's peer; the packet announcing the newly joined Mario is never
sent to peer 2. -/
theorem join_announce_echoes_recipient_to_itself :
    announceLoop [(1, marioPeer), (2, luigiPeer)] [(1, mario), (2, luigiCostumed)] 1
      = .ok [(1, marioPeer),
             (2, (luigiPeer.send (Packet.new 2 (.connect .first 10 "Luigi"))).send
                   (Packet.new 2 (.costume "Builder" "Cap1")))]
    ∧ Packet.new 1 (.connect .first 10 "Mario") ∉
        ((luigiPeer.send (Packet.new 2 (.connect .first 10 "Luigi"))).send
          (Packet.new 2 (.costume "Builder" "Cap1"))).sent :=
  ⟨rfl, by decide⟩

/-- **C5** — When the active loop terminates through an I/O failure of the
receive step, the error propagates out before the teardown block: the
registry still holds the peer with `connected = true` and an open channel.
(On `Disconnect` content, by contrast, teardown does run and marks the peer
disconnected with its channel closed.) -/
theorem io_failure_skips_teardown :
    handleActive openSettings 2 activeState [RecvResult.err]
      = some (activeState, .error .loopIo)
    ∧ (lookupKey activeState.peers 2).map Peer.connected = some true
    ∧ (lookupKey activeState.peers 2).map Peer.channelOpen = some true
    ∧ handleActive openSettings 2 activeState [RecvResult.ok (Packet.new 2 .disconnect)]
        = some (⟨[(2, ⟨2, 22, false, [], false⟩)], [(2, luigi)]⟩, .ok ()) :=
  ⟨rfl, rfl, rfl, rfl⟩

/-- Looking up a key in the list it was just removed from yields nothing. -/
theorem lookupKey_removeKey {α : Type} (m : List (Nat × α)) (k : Nat) :
    lookupKey (removeKey m k) k = none := by
  induction m with
  | nil => rfl
  | cons e rest ih =>
    by_cases h : e.1 = k
    · simpa [removeKey, List.filter_cons, h] using ih
    · simpa [removeKey, List.filter_cons, h, lookupKey] using ih

/-- Counterexample to **C6** as stated: PlayerId 2 is on the id denylist,
yet a reconnect handshake (a Player record for 2 already exists) inserts
its peer into the registry as connected — the reconnect path performs no
ban check. -/
theorem banned_reconnect_inserted_counterexample :
    banSettings.ban_list.ids.contains 2 = true
    ∧ ((lookupKey (handshake banSettings ⟨[], [(2, luigi)]⟩ 1 9
        (.ok connectPkt2)).state.peers 2).map Peer.connected) = some true :=
  ⟨rfl, rfl⟩

/-- **C6** (amended) — On the create path (no Player record for the
declared id), a handshake whose peer has a denylisted id or address fails
with the ban rejection: the peer is never inserted (the registry keeps no
entry under the declared id; it is exactly the prior registry minus any
stale entry), and the candidate peer was sent nothing beyond the initial
`Init` advertisement. -/
theorem banned_create_path_never_registered (settings : Settings) (st : ServerState)
    (freshId ip pid mp : Nat) (ctype : ConnectionType) (client : String)
    (h1 : lookupKey st.players pid = none)
    (h2 : connected_peers_count st.peers ≠ MAX_PLAYER)
    (h3 : pid ∈ settings.ban_list.ids ∨ ip ∈ settings.ban_list.ips) :
    (handshake settings st freshId ip
        (.ok (Packet.new pid (.connect ctype mp client)))).result = .error .banned
    ∧ (handshake settings st freshId ip
        (.ok (Packet.new pid (.connect ctype mp client)))).state.peers
        = removeKey st.peers pid
    ∧ lookupKey (handshake settings st freshId ip
        (.ok (Packet.new pid (.connect ctype mp client)))).state.peers pid = none
    ∧ (handshake settings st freshId ip
        (.ok (Packet.new pid (.connect ctype mp client)))).rejectedPeer
        = some ⟨pid, ip, true, [Packet.new freshId (.init MAX_PLAYER)], true⟩ := by
  unfold handshake on_new_peer
  rcases h3 with h3 | h3 <;>
    simp [Packet.new, Peer.new, Peer.send, Content.is_connect, h1, h2, h3,
      lookupKey_removeKey]

/-- Witness for C6's amended theorem: id 2 is denylisted, the store has no
Player 2, the registry is empty. -/
theorem banned_create_path_never_registered_witness :
    (handshake banSettings emptyState 1 9
        (.ok (Packet.new 2 (.connect .first 10 "Mario")))).result = .error .banned
    ∧ (handshake banSettings emptyState 1 9
        (.ok (Packet.new 2 (.connect .first 10 "Mario")))).state.peers
        = removeKey emptyState.peers 2
    ∧ lookupKey (handshake banSettings emptyState 1 9
        (.ok (Packet.new 2 (.connect .first 10 "Mario")))).state.peers 2 = none
    ∧ (handshake banSettings emptyState 1 9
        (.ok (Packet.new 2 (.connect .first 10 "Mario")))).rejectedPeer
        = some ⟨2, 9, true, [Packet.new 1 (.init MAX_PLAYER)], true⟩ :=
  banned_create_path_never_registered banSettings emptyState 1 9 2 10 .first "Mario"
    rfl (by decide) (Or.inl (by decide))

/-- Counterexample to **C7** as stated: a banned create-path handshake
(id 2 denylisted, a stale registry entry under 2, no Player 2) fails, yet
the store has gained the Player record built from the handshake and the
registry has lost the stale entry — the failure is partially applied. -/
theorem failed_banned_handshake_mutates_state :
    (handshake banSettings ⟨[(2, stalePeer)], []⟩ 1 9 (.ok connectPkt2)).result
        = .error .banned
    ∧ (handshake banSettings ⟨[(2, stalePeer)], []⟩ 1 9 (.ok connectPkt2)).state.players
        = [(2, Player.new 2 "Mario")]
    ∧ (handshake banSettings ⟨[(2, stalePeer)], []⟩ 1 9 (.ok connectPkt2)).state.peers
        = []
    ∧ ([(2, Player.new 2 "Mario")] : List (Nat × Player)) ≠ []
    ∧ ([] : List (Nat × Peer)) ≠ [(2, stalePeer)] :=
  ⟨rfl, rfl, rfl, by decide, by decide⟩

/-- **C7** (amended) — Failure effects of the handshake on shared state:
a wrong first message or a capacity rejection leaves registry and store
exactly as they were; a ban rejection (reachable only on the create path)
leaves the store with the new Player record added and the registry equal to
the prior registry with any stale entry under the declared id removed — in
particular no failing handshake ever inserts a registry entry. -/
theorem handshake_failure_state_effects (settings : Settings) (st : ServerState)
    (freshId ip : Nat) :
    (∀ pkt : Packet, pkt.content.is_connect = false →
      (handshake settings st freshId ip (.ok pkt)).state = st
      ∧ (handshake settings st freshId ip (.ok pkt)).result
          = .error .protocolViolation)
    ∧ (∀ pkt : Packet, pkt.content.is_connect = true →
        connected_peers_count st.peers = MAX_PLAYER →
      (handshake settings st freshId ip (.ok pkt)).state = st
      ∧ (handshake settings st freshId ip (.ok pkt)).result = .error .serverFull)
    ∧ (∀ (pid mp : Nat) (ctype : ConnectionType) (client : String),
        lookupKey st.players pid = none →
        connected_peers_count st.peers ≠ MAX_PLAYER →
        (pid ∈ settings.ban_list.ids ∨ ip ∈ settings.ban_list.ips) →
      (handshake settings st freshId ip
          (.ok (Packet.new pid (.connect ctype mp client)))).result = .error .banned
      ∧ (handshake settings st freshId ip
          (.ok (Packet.new pid (.connect ctype mp client)))).state.players
          = addPlayer st.players (Player.new pid client)
      ∧ (handshake settings st freshId ip
          (.ok (Packet.new pid (.connect ctype mp client)))).state.peers
          = removeKey st.peers pid) := by
  refine ⟨fun pkt h => ?_, fun pkt h hfull => ?_, fun pid mp ctype client h1 h2 h3 => ?_⟩
  · unfold handshake
    simp [h]
  · unfold handshake
    simp [h, hfull]
  · unfold handshake on_new_peer
    rcases h3 with h3 | h3 <;>
      simp [Packet.new, Peer.new, Peer.send, Content.is_connect, h1, h2, h3]

/-- Witness for C7's amended theorem: the ban-rejection conjunct at a
concrete input (address 9 denylisted, empty prior state). -/
theorem handshake_failure_state_effects_witness :
    (handshake ipBanSettings emptyState 1 9
        (.ok (Packet.new 3 (.connect .first 10 "Wario")))).result = .error .banned
    ∧ (handshake ipBanSettings emptyState 1 9
        (.ok (Packet.new 3 (.connect .first 10 "Wario")))).state.players
        = addPlayer emptyState.players (Player.new 3 "Wario")
    ∧ (handshake ipBanSettings emptyState 1 9
        (.ok (Packet.new 3 (.connect .first 10 "Wario")))).state.peers
        = removeKey emptyState.peers 3 :=
  (handshake_failure_state_effects ipBanSettings emptyState 1 9).2.2 3 10 .first "Wario"
    rfl (by decide) (Or.inr (by decide))

end Smo
